import Mathlib

/-!
Formal model of the tomato detection pipeline
(repository `koica8-sensors-tomato-detection`).

The development shallow-embeds the Python source into Lean:
pure computations become Lean functions, library calls with
environment-dependent outcomes (serial reads, camera reads, the MQTT
client, HTTP requests, clocks) become explicit parameters or oracle
inputs, and each handler's observable behaviour (return value, log
lines, outbound calls) is captured in an explicit trace structure.
Python floats are modelled as rationals; Python exceptions that the
source catches are modelled as explicit outcome constructors.
-/

namespace TomatoDetection

/-- Model of a Python/JSON value, as produced by `json.loads`.
Floats are modelled as rationals; a JSON object is an ordered
association list (first binding wins on lookup). -/
inductive PyVal where
  | pyNone : PyVal
  | pyBool : Bool → PyVal
  | pyInt : Int → PyVal
  | pyFloat : ℚ → PyVal
  | pyStr : String → PyVal
  | pyList : List PyVal → PyVal
  | pyDict : List (String × PyVal) → PyVal

/-- Python truthiness (`if not x`): None, False, 0, "", empty list and
empty dict are falsy; everything else is truthy. -/
def PyVal.truthy : PyVal → Bool
  | .pyNone => false
  | .pyBool b => b
  | .pyInt n => n != 0
  | .pyFloat q => q != 0
  | .pyStr s => s != ""
  | .pyList xs => !xs.isEmpty
  | .pyDict kvs => !kvs.isEmpty

/-- Python subscription `payload[key]` as used by the relay handler:
yields the value when `payload` is a dict containing the key, and
`none` when the key is missing (KeyError) or the value is not a dict
(TypeError); both exceptions are represented by `none`. -/
def pyDictGet : PyVal → String → Option PyVal
  | .pyDict kvs, k => kvs.lookup k
  | _, _ => none

/-- Whether a PyVal can be formatted with the `:.2%` float format
(numbers work, including bools, which are ints in Python). -/
def PyVal.isNumeric : PyVal → Bool
  | .pyInt _ => true
  | .pyFloat _ => true
  | .pyBool _ => true
  | _ => false

/-- A captured camera frame (an opaque pixel buffer; the pipeline never
inspects pixels itself, it only passes frames to library calls). -/
abbrev Frame := List Nat

/-- A servo command as written by `ArduinoReader.send_servo_command`:
the JSON line `\x7b"servo": id, "angle": angle\x7d` sent to the ESP32. -/
structure ServoCmd where
  servo : Int
  angle : Int
deriving Repr, DecidableEq

/-- `config.TOMATO_CLASSES`: the fixed class lookup table from
`rasp/config.py`. -/
def TOMATO_CLASSES : List (Int × String) :=
  [(0, "unripe"), (1, "ripe"), (2, "old"), (3, "damaged")]

/-- `config.SERVO_ACTIONS`: the fixed actuation map from
`rasp/config.py` (class index to servo action). -/
def SERVO_ACTIONS : List (Int × ServoCmd) :=
  [(0, ⟨1, 45⟩), (1, ⟨1, 90⟩), (2, ⟨1, 135⟩), (3, ⟨1, 180⟩)]

/-- Python `dict.get(k, default)` over an association-list dict. -/
def dictGet {α : Type} (d : List (Int × α)) (k : Int) (deflt : α) : α :=
  match d.lookup k with
  | some v => v
  | none => deflt

/-- `TOMATO_CLASSES.get(class_idx, "-1")` from `rasp/main.py` step 4:
the class name derived from a class index. -/
def class_name (class_idx : Int) : String :=
  dictGet TOMATO_CLASSES class_idx "-1"

/-- `get_servo_action` from `rasp/main.py`:
`SERVO_ACTIONS.get(class_idx, \x7b"servo": 1, "angle": 180\x7d)`. -/
def get_servo_action (class_idx : Int) : ServoCmd :=
  dictGet SERVO_ACTIONS class_idx ⟨1, 180⟩

/-- `np.max` over a model score vector. `np.max` raises on an empty
array, so the empty case (junk value 0) is outside the model; theorems
carry a nonemptiness hypothesis. -/
def npMax (scores : List ℚ) : ℚ :=
  match scores with
  | [] => 0
  | x :: xs => xs.foldl max x

/-- `np.argmax` over a model score vector: the index of the first
element attaining the maximum (numpy returns the first maximal index).
Junk value 0 on the empty array, where numpy raises. -/
def npArgmax (scores : List ℚ) : Nat :=
  scores.indexOf (npMax scores)

/-- The prediction payload built in step 5 of `rasp/main.py`
(the ClassificationEvent published over MQTT). -/
structure PredictionPayload where
  tomato_id : String
  device_id : String
  «class» : Int
  class_name : String
  confidence : ℚ
  rasp_timestamp : String

/-- Python format `\x7bcounter:03d\x7d`: decimal, zero-padded to width 3. -/
def pad3 (n : Nat) : String :=
  if n < 10 then "00" ++ toString n
  else if n < 100 then "0" ++ toString n
  else toString n

/-- Steps 4 and 5 of the `rasp/main.py` loop body: from the model
output vector `y_pred`, `class_idx = int(np.argmax(y_pred))`,
`confidence = float(np.max(y_pred))`,
`class_name = TOMATO_CLASSES.get(class_idx, "-1")`, a tomato id built
from the epoch second and the event counter, and the UTC timestamp with
a "Z" suffix. -/
def mkPredictionPayload (device_id : String) (epoch : Nat) (utcnow : String)
    (counter : Nat) (y_pred : List ℚ) : PredictionPayload :=
  let class_idx : Int := ((npArgmax y_pred : Nat) : Int)
  { tomato_id := "tm_" ++ toString epoch ++ "_" ++ pad3 counter
    device_id := device_id
    «class» := class_idx
    class_name := class_name class_idx
    confidence := npMax y_pred
    rasp_timestamp := utcnow ++ "Z" }

/-- One poll of the Arduino serial line as seen by
`ArduinoReader.read_ir_signal`: either no bytes are waiting
(`self.ser.in_waiting` is falsy), or a full line was read and
`json.loads` on it gave the attached result (`none` when the line is
malformed JSON and `json.loads` raised). -/
inductive SerialPoll where
  | idle : SerialPoll
  | line : Option PyVal → SerialPoll

/-- `ArduinoReader.read_ir_signal`: returns the parsed JSON data
unconditionally when the line parses (the `ir_detected` field is never
inspected), `None` when parsing raises (logged), and `None` implicitly
when nothing is waiting. -/
def read_ir_signal : SerialPoll → Option PyVal
  | .idle => none
  | .line none => none
  | .line (some v) => some v

/-- `MQTTPublisher.publish_message`: serializes and publishes; the
argument is the paho publish return code (`none` when `json.dumps` or
`client.publish` raised, caught by the handler's `except`). Returns
True exactly when the rc is 0; every exception yields False. -/
def publish_message (publishRc : Option Nat) : Bool :=
  match publishRc with
  | some rc => rc == 0
  | none => false

/-- The edge `MQTTPublisher` object as left by `__init__`
(`rasp/MQTTPublisher/mqtt_client.py`): the constructor stores
`broker_url`, `broker_port` and `topic` (and the paho client with its
callbacks). No attribute named `broker_host` is ever assigned. -/
structure MQTTPublisher where
  broker_url : String
  broker_port : Int
  topic : String

/-- `MQTTPublisher.__init__(broker_url, broker_port, topic)`
(`topic` defaults to "tomato/predictions" at the call site). -/
def MQTTPublisher.init (broker_url : String) (broker_port : Int)
    (topic : String) : MQTTPublisher :=
  ⟨broker_url, broker_port, topic⟩

/-- Python attribute lookup on the edge publisher instance: the data
attributes `__init__` assigned, and `none` (AttributeError) for
anything else — in particular for `broker_host`. The paho `client`
attribute is omitted as it is not a JSON-like value; no theorem relies
on its absence. -/
def MQTTPublisher.getattr (self : MQTTPublisher) (name : String) : Option PyVal :=
  match name with
  | "broker_url" => some (.pyStr self.broker_url)
  | "broker_port" => some (.pyInt self.broker_port)
  | "topic" => some (.pyStr self.topic)
  | _ => none

/-- Observable outcome of one `MQTTPublisher.connect()` call. -/
structure ConnectTrace where
  result : Bool
  clientConnectCalled : Bool
  loopStarted : Bool
deriving Repr, DecidableEq

/-- `MQTTPublisher.connect`: inside `try`, evaluates
`self.broker_host` (AttributeError when absent — before any network
call), then calls `self.client.connect(...)` and `loop_start()` and
returns True; any exception is caught and False is returned. `netOk`
is the oracle for whether `client.connect` would succeed. -/
def MQTTPublisher.connect (self : MQTTPublisher) (netOk : Bool) : ConnectTrace :=
  match self.getattr "broker_host" with
  | none => ⟨false, false, false⟩
  | some _ =>
    if netOk then ⟨true, true, true⟩
    else ⟨false, true, false⟩

/-- Environment oracle for one iteration of the `rasp/main.py` while
loop: the serial poll outcome, the `camera.capture()` outcome, the
model scores `model.predict(preprocess_tomato_image(frame))` as a
function of the captured frame (the resize-and-normalize preprocessing
and the model invocation are library calls folded into this oracle),
the paho publish return code, and the clock readings. -/
structure IterEnv where
  poll : SerialPoll
  captureResult : Option Frame
  y_pred : Frame → List ℚ
  publishRc : Option Nat
  epoch : Nat
  utcnow : String
  device_id : String

/-- Observable outcome of one iteration of the main loop:
the event counter after the iteration, whether the loop left
WAIT_TRIGGER and attempted a capture, the payload handed to
`publish_message` (if any), the value `publish_message` returned
(which the loop ignores), the servo command written to the serial
port (if any), and whether the idle `time.sleep(0.1)` ran. -/
structure IterResult where
  counter : Nat
  captureAttempted : Bool
  published : Option PredictionPayload
  publishResult : Option Bool
  servoSent : Option ServoCmd
  sleptIdle : Bool

/-- Whether the loop's trigger test passes this iteration:
`ir_data = arduino.read_ir_signal(); if not ir_data: ...` — i.e. the
poll returned a value and that value is Python-truthy. -/
def triggered (env : IterEnv) : Bool :=
  match read_ir_signal env.poll with
  | some v => v.truthy
  | none => false

/-- One iteration of the `rasp/main.py` main loop, from the top of the
`while True` body: poll the IR trigger (idle sleep and `continue` when
falsy), capture (plain `continue` on failure, dropping the trigger),
preprocess + predict, build the payload, publish (return value
ignored), look up and send the servo action, and finally increment
`tomato_counter`. -/
def loopIter (env : IterEnv) (counter : Nat) : IterResult :=
  match read_ir_signal env.poll with
  | none => ⟨counter, false, none, none, none, true⟩
  | some v =>
    if v.truthy then
      match env.captureResult with
      | none => ⟨counter, true, none, none, none, false⟩
      | some image =>
        let y := env.y_pred image
        let payload := mkPredictionPayload env.device_id env.epoch env.utcnow counter y
        let pubRes := publish_message env.publishRc
        let action := get_servo_action ((npArgmax y : Nat) : Int)
        ⟨counter + 1, true, some payload, some pubRes, some action, false⟩
    else ⟨counter, false, none, none, none, true⟩

/-- Outcome of one `self.cap.read()` call inside
`CameraHandler.capture`: a usable frame (`ret` true and frame not
None), an unusable read (`ret` false or frame None — the branch that
sleeps before retrying), or an exception (caught, no sleep). -/
inductive ReadOutcome where
  | ok : Frame → ReadOutcome
  | bad : ReadOutcome
  | exc : ReadOutcome

/-- Observable outcome of one `CameraHandler.capture` call: the
returned frame (None on failure), how many `cap.read` attempts were
made, and how many 0.1 s retry delays were taken. -/
structure CaptureTrace where
  result : Option Frame
  attempts : Nat
  sleeps : Nat
deriving Repr, DecidableEq

/-- The `for attempt in range(retry_count)` loop of
`CameraHandler.capture`, over the remaining attempt indices: a usable
read returns its frame at once; an unusable read sleeps 0.1 s (except
on the last attempt index) and falls through to the next attempt; a
caught exception falls through without sleeping. -/
def captureGo (reads : Nat → ReadOutcome) (retry_count : Nat) :
    List Nat → CaptureTrace
  | [] => ⟨none, 0, 0⟩
  | a :: rest =>
    match reads a with
    | .ok f => ⟨some f, 1, 0⟩
    | .bad =>
      let t := captureGo reads retry_count rest
      ⟨t.result, t.attempts + 1, t.sleeps + (if a < retry_count - 1 then 1 else 0)⟩
    | .exc =>
      let t := captureGo reads retry_count rest
      ⟨t.result, t.attempts + 1, t.sleeps⟩

/-- `CameraHandler.capture(retry_count)` (default `retry_count=3` at
the call sites): returns None immediately when the camera is not
initialized, otherwise runs the retry loop and returns None (never
raising) when the budget is exhausted. `reads` is the oracle giving
the outcome of the i-th `cap.read()` call. -/
def capture (is_open : Bool) (reads : Nat → ReadOutcome) (retry_count : Nat) :
    CaptureTrace :=
  if is_open then captureGo reads retry_count (List.range retry_count)
  else ⟨none, 0, 0⟩

/-- The frames list built by `CameraHandler.capture_multiple`: the
successfully captured frames, in capture order, over the given attempt
indices (`cap i` is the outcome of the i-th `self.capture()` call). -/
def successFrames (cap : Nat → Option Frame) : List Nat → List Frame
  | [] => []
  | i :: rest =>
    match cap i with
    | some f => f :: successFrames cap rest
    | none => successFrames cap rest

/-- The inter-frame delays taken by `CameraHandler.capture_multiple`:
after each successful capture at index `i < num_frames - 1` the loop
sleeps `delay_ms / 1000` seconds. -/
def interFrameSleeps (cap : Nat → Option Frame) (num_frames : Nat)
    (delay_ms : ℚ) : List Nat → List ℚ
  | [] => []
  | i :: rest =>
    match cap i with
    | some _ =>
      (if i < num_frames - 1 then [delay_ms / 1000] else [])
        ++ interFrameSleeps cap num_frames delay_ms rest
    | none => interFrameSleeps cap num_frames delay_ms rest

/-- Observable outcome of one `CameraHandler.capture_multiple` call:
the selected frame (None when no capture succeeded) and the inter-frame
delays taken. -/
structure MultiTrace where
  result : Option Frame
  sleeps : List ℚ

/-- `CameraHandler.capture_multiple(num_frames, delay_ms)` (defaults
`num_frames=3`, `delay_ms=50`): captures up to `num_frames` frames,
scores each successful frame with the sharpness metric `score` (in the
source, the variance of `cv2.Laplacian` of the grayscale frame — a
library pipeline, modelled as the score oracle; the source computes
the scores list in lockstep with the frames list, which equals mapping
the metric over the frames), and returns
`frames[np.argmax(sharpness_scores)]`, or None when `frames` is empty. -/
def capture_multiple (score : Frame → ℚ) (cap : Nat → Option Frame)
    (num_frames : Nat) (delay_ms : ℚ) : MultiTrace :=
  let frames := successFrames cap (List.range num_frames)
  let sharpness_scores := frames.map score
  let sleeps := interFrameSleeps cap num_frames delay_ms (List.range num_frames)
  if frames.isEmpty then ⟨none, sleeps⟩
  else ⟨frames.get? (npArgmax sharpness_scores), sleeps⟩

/-- A log line emitted by the relay subscriber's `on_message`
(`server/MQTTSubscriber/mqtt_client.py`). -/
inductive SubLog where
  | receivedLine : PyVal → SubLog
  | classLine : PyVal → PyVal → SubLog
  | invalidJson : SubLog
  | procError : SubLog

/-- Observable behaviour of one `on_message` invocation: the log lines
printed, and the payloads POSTed to the backend API (each element
would be one `forward_to_api` call). -/
structure OnMessageTrace where
  logs : List SubLog
  apiCalls : List PyVal

/-- `MQTTSubscriber.on_message`: `json.loads` on the payload (the
argument is its result, `none` when it raised JSONDecodeError); on
success it prints the `tomato_id` line, then the
`class_name`/`confidence` line (the `:.2%` format needs a numeric
confidence); a missing key or non-numeric confidence raises and is
caught by the generic handler. The `forward_to_api` call in the source
is commented out, so no invocation ever produces an API call. The
handler catches every exception, so it never raises. -/
def on_message (parsed : Option PyVal) : OnMessageTrace :=
  match parsed with
  | none => ⟨[.invalidJson], []⟩
  | some payload =>
    match pyDictGet payload "tomato_id" with
    | none => ⟨[.procError], []⟩
    | some tid =>
      match pyDictGet payload "class_name", pyDictGet payload "confidence" with
      | some cn, some conf =>
        if conf.isNumeric then ⟨[.receivedLine tid, .classLine cn conf], []⟩
        else ⟨[.receivedLine tid, .procError], []⟩
      | _, _ => ⟨[.receivedLine tid, .procError], []⟩

/-- The subscription loop: each delivered message is handled by
`on_message` independently; handling one message never affects the
handling of the rest. -/
def processMessages (msgs : List (Option PyVal)) : List OnMessageTrace :=
  msgs.map on_message

/-- The HTTP request `forward_to_api` issues: a POST of the prediction
to the configured endpoint with `timeout=10`. -/
structure PostRequest where
  endpoint : String
  body : PyVal
  timeout : Nat

/-- The request `MQTTSubscriber.forward_to_api` builds:
`requests.post(self.api_endpoint, json=prediction_data, ..., timeout=10)`. -/
def forwardRequest (api_endpoint : String) (prediction_data : PyVal) : PostRequest :=
  ⟨api_endpoint, prediction_data, 10⟩

/-- Outcome of the POST inside `forward_to_api`: a response with a
status code and body text, a `requests` Timeout, a ConnectionError, or
any other exception. -/
inductive HttpOutcome where
  | status : Nat → String → HttpOutcome
  | timeout : HttpOutcome
  | connError : HttpOutcome
  | otherError : HttpOutcome

/-- A log line emitted by `forward_to_api`. -/
inductive FwdLog where
  | saved : FwdLog
  | apiError : Nat → FwdLog
  | timeoutRetrying : FwdLog
  | connErrorLog : FwdLog
  | errorLog : FwdLog
deriving Repr, DecidableEq

/-- `MQTTSubscriber.forward_to_api`, given the POST outcome: a 201
response logs success; any other status logs an API error with the
code; Timeout, ConnectionError and any other exception are each caught
and logged. The function never raises and never retries. -/
def forward_to_api (outcome : HttpOutcome) : FwdLog :=
  match outcome with
  | .status c _ => if c = 201 then .saved else .apiError c
  | .timeout => .timeoutRetrying
  | .connError => .connErrorLog
  | .otherError => .errorLog

/-- A well-formed ClassificationEvent payload, as the edge publisher
produces it, used as a concrete decoded broker message. -/
def samplePayload : PyVal :=
  .pyDict [("tomato_id", .pyStr "tm_1700000000_000"),
           ("device_id", .pyStr "raspberrypi_default"),
           ("class", .pyInt 1),
           ("class_name", .pyStr "ripe"),
           ("confidence", .pyFloat (87/100)),
           ("rasp_timestamp", .pyStr "2025-01-01T00:00:00Z")]

/-- A well-formed sensor frame whose `ir_detected` field is `false`. -/
def irFalseFrame : PyVal :=
  .pyDict [("ir_detected", .pyBool false),
           ("timestamp", .pyStr "2025-01-01T00:00:00Z")]

/-- A loop environment in which the serial line delivered
`irFalseFrame` and the camera would deliver a frame. -/
def envIrFalse : IterEnv :=
  ⟨.line (some irFalseFrame), some [0], fun _ => [1], some 0,
   1700000000, "2025-01-01T00:00:00", "raspberrypi_default"⟩

/-- A loop environment with a genuine trigger but a failing capture. -/
def envNoCapture : IterEnv :=
  ⟨.line (some (.pyDict [("ir_detected", .pyBool true),
                         ("timestamp", .pyStr "2025-01-01T00:00:00Z")])),
   none, fun _ => [1], some 0, 1700000000, "2025-01-01T00:00:00",
   "raspberrypi_default"⟩

/-- A loop environment in which the serial line is idle. -/
def envIdle : IterEnv :=
  ⟨.idle, none, fun _ => [1], none, 0, "2025-01-01T00:00:00",
   "raspberrypi_default"⟩

/-- A concrete sharpness metric for witness frames: the first pixel. -/
def sharpnessOf : Frame → ℚ :=
  fun f => ((f.headD 0 : Nat) : ℚ)

/-- Three synthetic capture outcomes of known, distinct sharpness. -/
def threeCaps : Nat → Option Frame :=
  fun i => if i = 0 then some [1] else if i = 1 then some [5] else some [3]

/-- Camera read outcomes where the first read is unusable and the
second is a usable frame. -/
def readsSecondOk : Nat → ReadOutcome :=
  fun i => if i = 1 then .ok [42] else .bad

end TomatoDetection

namespace TomatoDetection

/- Helper lemmas about the numpy max/argmax model. -/

theorem foldl_max_init_le (xs : List ℚ) (b : ℚ) : b ≤ xs.foldl max b := by
  induction xs generalizing b with
  | nil => exact le_refl b
  | cons x xs ih => exact le_trans (le_max_left b x) (ih (max b x))

theorem mem_le_foldl_max (xs : List ℚ) (b : ℚ) : ∀ x ∈ xs, x ≤ xs.foldl max b := by
  induction xs generalizing b with
  | nil => intro x hx; exact absurd hx (List.not_mem_nil x)
  | cons y ys ih =>
    intro x hx
    rcases List.mem_cons.1 hx with h | h
    · subst h; exact le_trans (le_max_right b x) (foldl_max_init_le ys (max b x))
    · exact ih (max b y) x h

theorem foldl_max_mem (xs : List ℚ) (b : ℚ) :
    xs.foldl max b = b ∨ xs.foldl max b ∈ xs := by
  induction xs generalizing b with
  | nil => left; rfl
  | cons y ys ih =>
    show ys.foldl max (max b y) = b ∨ ys.foldl max (max b y) ∈ y :: ys
    rcases ih (max b y) with h | h
    · rcases max_choice b y with hm | hm
      · left; rw [h, hm]
      · right; rw [h, hm]; exact List.mem_cons_self y ys
    · right; exact List.mem_cons_of_mem y h

theorem npMax_mem {l : List ℚ} (h : l ≠ []) : npMax l ∈ l := by
  match l with
  | [] => exact absurd rfl h
  | x :: xs =>
    show xs.foldl max x ∈ x :: xs
    rcases foldl_max_mem xs x with h1 | h1
    · rw [h1]; exact List.mem_cons_self x xs
    · exact List.mem_cons_of_mem x h1

theorem le_npMax {l : List ℚ} (x : ℚ) (hx : x ∈ l) : x ≤ npMax l := by
  match l with
  | [] => exact absurd hx (List.not_mem_nil x)
  | y :: ys =>
    show x ≤ ys.foldl max y
    rcases List.mem_cons.1 hx with h | h
    · subst h; exact foldl_max_init_le ys x
    · exact mem_le_foldl_max ys y x h

theorem npArgmax_lt_length {l : List ℚ} (h : l ≠ []) : npArgmax l < l.length :=
  List.indexOf_lt_length.2 (npMax_mem h)

theorem get_npArgmax {l : List ℚ} (h : l ≠ []) :
    l.get ⟨npArgmax l, npArgmax_lt_length h⟩ = npMax l :=
  List.indexOf_get (npArgmax_lt_length h)

/-- Claim C4 counterexample: at the out-of-range class index 5 the
derived class name is the default label "-1", which is not the literal
label "unknown" that the spec names. -/
theorem class_name_default_not_unknown :
    class_name 5 = "-1" ∧ class_name 5 ≠ "unknown" := by
  refine ⟨by decide, by decide⟩

/-- Claim C4 (amended): for every integer class index outside the keys
0..3 of `TOMATO_CLASSES`, the derived class name is the fixed default
label "-1" (not an error); for indices inside the table it is the fixed
lookup value: 0 ↦ "unripe", 1 ↦ "ripe", 2 ↦ "old", 3 ↦ "damaged". -/
theorem class_name_lookup_spec (idx : Int)
    (h0 : idx ≠ 0) (h1 : idx ≠ 1) (h2 : idx ≠ 2) (h3 : idx ≠ 3) :
    class_name idx = "-1" ∧ class_name 0 = "unripe" ∧ class_name 1 = "ripe" ∧
      class_name 2 = "old" ∧ class_name 3 = "damaged" := by
  refine ⟨?_, by decide, by decide, by decide, by decide⟩
  have e0 : (idx == (0 : Int)) = false := beq_eq_false_iff_ne.mpr h0
  have e1 : (idx == (1 : Int)) = false := beq_eq_false_iff_ne.mpr h1
  have e2 : (idx == (2 : Int)) = false := beq_eq_false_iff_ne.mpr h2
  have e3 : (idx == (3 : Int)) = false := beq_eq_false_iff_ne.mpr h3
  simp [class_name, dictGet, TOMATO_CLASSES, List.lookup, e0, e1, e2, e3]

/-- Claim C4 witness: the amended lookup property evaluated at the
out-of-range index 5. -/
theorem class_name_lookup_witness : class_name 5 = "-1" :=
  (class_name_lookup_spec 5 (by decide) (by decide) (by decide) (by decide)).1

/-- Claim C6: `get_servo_action` is total (a Lean function, so it never
raises): inside the actuation map it returns the map entry — in
particular index 1 yields servo 1 at angle 90 — and outside the map it
returns the default reject action, servo 1 at angle 180. -/
theorem get_servo_action_spec (idx : Int)
    (h0 : idx ≠ 0) (h1 : idx ≠ 1) (h2 : idx ≠ 2) (h3 : idx ≠ 3) :
    get_servo_action idx = ⟨1, 180⟩ ∧ get_servo_action 0 = ⟨1, 45⟩ ∧
      get_servo_action 1 = ⟨1, 90⟩ ∧ get_servo_action 2 = ⟨1, 135⟩ ∧
      get_servo_action 3 = ⟨1, 180⟩ := by
  refine ⟨?_, by decide, by decide, by decide, by decide⟩
  have e0 : (idx == (0 : Int)) = false := beq_eq_false_iff_ne.mpr h0
  have e1 : (idx == (1 : Int)) = false := beq_eq_false_iff_ne.mpr h1
  have e2 : (idx == (2 : Int)) = false := beq_eq_false_iff_ne.mpr h2
  have e3 : (idx == (3 : Int)) = false := beq_eq_false_iff_ne.mpr h3
  simp [get_servo_action, dictGet, SERVO_ACTIONS, List.lookup, e0, e1, e2, e3]

/-- Claim C6 witness: the default reject action at the unmapped
index 7. -/
theorem get_servo_action_spec_witness : get_servo_action 7 = ⟨1, 180⟩ :=
  (get_servo_action_spec 7 (by decide) (by decide) (by decide) (by decide)).1

/-- Claim C2: for every broker_url, broker_port and topic, the edge
publisher constructed by `__init__` has no `broker_host` attribute, so
`connect()` hits an AttributeError inside its `try` before any client
call, catches it, and returns False — regardless of whether the broker
would have accepted the connection. No broker connection is ever
established. -/
theorem publisher_connect_always_false (url : String) (port : Int)
    (topic : String) (netOk : Bool) :
    (MQTTPublisher.init url port topic).getattr "broker_host" = none ∧
    ((MQTTPublisher.init url port topic).connect netOk).result = false ∧
    ((MQTTPublisher.init url port topic).connect netOk).clientConnectCalled = false :=
  ⟨rfl, rfl, rfl⟩

/-- Claim C8: a broker delivery whose payload is not valid JSON is
logged as a decode failure and dropped: the handler emits exactly the
invalid-JSON log line, forwards nothing to the backend API, returns
normally (it is a total function, so it does not raise), and every
subsequent message is still handled by `on_message` unchanged. -/
theorem on_message_invalid_json_drops (rest : List (Option PyVal)) :
    on_message none = ⟨[SubLog.invalidJson], []⟩ ∧
    (on_message none).apiCalls = [] ∧
    processMessages (none :: rest) = ⟨[SubLog.invalidJson], []⟩ :: processMessages rest :=
  ⟨rfl, rfl, rfl⟩

theorem on_message_apiCalls_nil (m : Option PyVal) : (on_message m).apiCalls = [] := by
  rcases m with _ | payload
  · rfl
  · unfold on_message
    rcases htid : pyDictGet payload "tomato_id" with _ | tid
    · simp only [htid]
    · rcases hcn : pyDictGet payload "class_name" with _ | cn <;>
        rcases hconf : pyDictGet payload "confidence" with _ | conf <;>
        simp only [htid, hcn, hconf] <;>
        first
        | rfl
        | (split <;> rfl)

/-- Claim C1 counterexample: a broker message that decodes successfully
as a well-formed ClassificationEvent is only logged by `on_message` —
the handler issues no HTTP POST to the backend API (the
`forward_to_api` call in the source is commented out). -/
theorem on_message_decoded_event_not_forwarded :
    (on_message (some samplePayload)).apiCalls = [] ∧
    (on_message (some samplePayload)).logs =
      [SubLog.receivedLine (.pyStr "tm_1700000000_000"),
       SubLog.classLine (.pyStr "ripe") (.pyFloat (87/100))] :=
  ⟨rfl, rfl⟩

/-- Claim C1 (amended): the relay's `on_message` handler never forwards
anything to the backend API — for every delivery it produces zero API
calls, the forwarding call being commented out in the source. The
`forward_to_api` routine itself (present but never invoked by
`on_message`) POSTs with a bounded timeout of 10 time units, treats a
201 response as success, logs any other status as an API error, and
logs (and drops) timeouts and connection failures. -/
theorem relay_forward_semantics :
    (∀ m : Option PyVal, (on_message m).apiCalls = []) ∧
    (∀ e d, (forwardRequest e d).timeout = 10) ∧
    (∀ t, forward_to_api (.status 201 t) = .saved) ∧
    (∀ c t, c ≠ 201 → forward_to_api (.status c t) = .apiError c) ∧
    forward_to_api .timeout = .timeoutRetrying ∧
    forward_to_api .connError = .connErrorLog := by
  refine ⟨on_message_apiCalls_nil, fun e d => rfl, fun t => rfl, ?_, rfl, rfl⟩
  intro c t hc
  simp only [forward_to_api, if_neg hc]

/-- Claim C1 witness: the forwarding semantics evaluated at a concrete
non-201 response. -/
theorem relay_forward_semantics_witness :
    forward_to_api (.status 500 "err") = .apiError 500 :=
  relay_forward_semantics.2.2.2.1 500 "err" (by decide)

/-- Claim C5 counterexample: a one-element model output vector with
score 2 yields confidence 2 in the published payload — outside
[0.0, 1.0] — because the adapter takes `float(np.max(y_pred))` without
clamping or validating. -/
theorem confidence_out_of_range_example :
    (mkPredictionPayload "raspberrypi_default" 1700000000 "2025-01-01T00:00:00"
        0 [2]).confidence = 2 ∧
    ¬ ((2 : ℚ) ≤ 1) :=
  ⟨rfl, by norm_num⟩

/-- Claim C5 (amended): the confidence placed in the payload is exactly
the raw maximum of the model output vector, propagated without
clamping or validation; consequently it lies within [0.0, 1.0] exactly
when the model's own scores do (e.g. softmax outputs), and for any
nonempty output vector whose scores all lie in [0, 1] the published
confidence lies in [0, 1]. -/
theorem confidence_propagation_spec (device_id utcnow : String)
    (epoch counter : Nat) (y : List ℚ) (hne : y ≠ []) :
    (mkPredictionPayload device_id epoch utcnow counter y).confidence = npMax y ∧
    ((∀ s ∈ y, 0 ≤ s ∧ s ≤ 1) →
      0 ≤ (mkPredictionPayload device_id epoch utcnow counter y).confidence ∧
      (mkPredictionPayload device_id epoch utcnow counter y).confidence ≤ 1) := by
  have hconf : (mkPredictionPayload device_id epoch utcnow counter y).confidence
      = npMax y := rfl
  refine ⟨hconf, fun hb => ?_⟩
  rw [hconf]
  exact ⟨(hb _ (npMax_mem hne)).1, (hb _ (npMax_mem hne)).2⟩

/-- Claim C5 witness: the amended property evaluated at the in-range
model output vector [1/2]. -/
theorem confidence_propagation_witness :
    0 ≤ (mkPredictionPayload "raspberrypi_default" 0 "2025-01-01T00:00:00"
        0 [(1 : ℚ)/2]).confidence ∧
    (mkPredictionPayload "raspberrypi_default" 0 "2025-01-01T00:00:00"
        0 [(1 : ℚ)/2]).confidence ≤ 1 :=
  (confidence_propagation_spec "raspberrypi_default" "2025-01-01T00:00:00" 0
      0 [(1 : ℚ)/2] (by simp)).2
    (by
      intro s hs
      rw [List.mem_singleton] at hs
      subst hs
      norm_num)

/-- Claim C7: in every loop iteration, the event counter increments
exactly when the iteration fully classifies an event — the trigger
test passed and the capture yielded a frame — and only then; a capture
failure leaves the counter unchanged (the trigger is dropped), and the
publish outcome (the paho return code, including a raised exception in
`publish_message`) has no effect on whether the counter increments. -/
theorem loopIter_counter_eq (env : IterEnv) (counter : Nat) :
    (loopIter env counter).counter =
      if triggered env = true ∧ env.captureResult.isSome = true then counter + 1
      else counter := by
  rcases env with ⟨poll, capR, ypred, prc, ep, ut, dev⟩
  rcases poll with _ | ov
  · simp [loopIter, triggered, read_ir_signal]
  · rcases ov with _ | v
    · simp [loopIter, triggered, read_ir_signal]
    · by_cases ht : v.truthy = true
      · rcases capR with _ | image <;>
          simp [loopIter, triggered, read_ir_signal, ht]
      · simp only [Bool.not_eq_true] at ht
        rcases capR with _ | image <;>
          simp [loopIter, triggered, read_ir_signal, ht]

theorem loopIter_captureAttempted_eq (env : IterEnv) (counter : Nat) :
    (loopIter env counter).captureAttempted = triggered env := by
  rcases env with ⟨poll, capR, ypred, prc, ep, ut, dev⟩
  rcases poll with _ | ov
  · simp [loopIter, triggered, read_ir_signal]
  · rcases ov with _ | v
    · simp [loopIter, triggered, read_ir_signal]
    · by_cases ht : v.truthy = true
      · rcases capR with _ | image <;>
          simp [loopIter, triggered, read_ir_signal, ht]
      · simp only [Bool.not_eq_true] at ht
        simp [loopIter, triggered, read_ir_signal, ht]

theorem loopIter_sleptIdle_eq (env : IterEnv) (counter : Nat) :
    (loopIter env counter).sleptIdle = !(triggered env) := by
  rcases env with ⟨poll, capR, ypred, prc, ep, ut, dev⟩
  rcases poll with _ | ov
  · simp [loopIter, triggered, read_ir_signal]
  · rcases ov with _ | v
    · simp [loopIter, triggered, read_ir_signal]
    · by_cases ht : v.truthy = true
      · rcases capR with _ | image <;>
          simp [loopIter, triggered, read_ir_signal, ht]
      · simp only [Bool.not_eq_true] at ht
        simp [loopIter, triggered, read_ir_signal, ht]

theorem loop_counter_spec (env : IterEnv) (counter : Nat) :
    ((loopIter env counter).counter = counter + 1 ↔
      triggered env = true ∧ env.captureResult.isSome = true) ∧
    (env.captureResult = none → (loopIter env counter).counter = counter) ∧
    (∀ rc1 rc2 : Option Nat,
      (loopIter { env with publishRc := rc1 } counter).counter =
        (loopIter { env with publishRc := rc2 } counter).counter) := by
  refine ⟨?_, ?_, ?_⟩
  · rw [loopIter_counter_eq]
    by_cases hc : triggered env = true ∧ env.captureResult.isSome = true
    · simp [hc]
    · simp [hc, Nat.self_eq_add_right]
  · intro h
    rw [loopIter_counter_eq]
    simp [h]
  · intro rc1 rc2
    rw [loopIter_counter_eq, loopIter_counter_eq]
    rfl

/-- Claim C7 witness: a triggered iteration whose capture fails leaves
the counter unchanged. -/
theorem loop_counter_spec_witness : (loopIter envNoCapture 5).counter = 5 :=
  (loop_counter_spec envNoCapture 5).2.1 rfl

/-- Claim C3 counterexample: a well-formed sensor frame whose
`ir_detected` field is `false` still makes the loop leave WAIT_TRIGGER
and attempt a capture — `read_ir_signal` returns any parsed JSON value
without inspecting `ir_detected`, and the loop only tests Python
truthiness of the returned dict. -/
theorem ir_false_frame_triggers_capture :
    pyDictGet irFalseFrame "ir_detected" = some (.pyBool false) ∧
    (loopIter envIrFalse 0).captureAttempted = true :=
  ⟨rfl, rfl⟩

/-- Claim C3 (amended): the loop leaves WAIT_TRIGGER (attempts a
capture) exactly when the serial poll yielded a well-formed JSON line
whose decoded value is Python-truthy (e.g. any non-empty object); the
`ir_detected` field itself is never inspected, so a frame with
`ir_detected` false also triggers. A malformed line is ignored (logged,
no event) and leaves the loop idle, and an absent signal is the normal
idle condition: both branches just sleep the short 0.1 s poll interval
and continue. -/
theorem loop_trigger_gate (env : IterEnv) (counter : Nat) :
    ((loopIter env counter).captureAttempted = true ↔
      ∃ v, read_ir_signal env.poll = some v ∧ v.truthy = true) ∧
    (env.poll = .line none →
      (loopIter env counter).captureAttempted = false ∧
      (loopIter env counter).sleptIdle = true) ∧
    (env.poll = .idle →
      (loopIter env counter).captureAttempted = false ∧
      (loopIter env counter).sleptIdle = true) := by
  refine ⟨?_, ?_, ?_⟩
  · rw [loopIter_captureAttempted_eq]
    rcases hp : read_ir_signal env.poll with _ | v
    · simp [triggered, hp]
    · simp [triggered, hp]
  · intro h
    rw [loopIter_captureAttempted_eq, loopIter_sleptIdle_eq]
    simp [triggered, h, read_ir_signal]
  · intro h
    rw [loopIter_captureAttempted_eq, loopIter_sleptIdle_eq]
    simp [triggered, h, read_ir_signal]

/-- Claim C3 witness: the amended gate evaluated at the idle serial
state: no capture is attempted and the loop sleeps its poll interval. -/
theorem loop_trigger_gate_witness :
    (loopIter envIdle 0).captureAttempted = false ∧
    (loopIter envIdle 0).sleptIdle = true :=
  (loop_trigger_gate envIdle 0).2.2 rfl

/- Helper lemmas about the camera model. -/

theorem mem_successFrames {cap : Nat → Option Frame} {f : Frame} :
    ∀ {l : List Nat}, f ∈ successFrames cap l ↔ ∃ i ∈ l, cap i = some f := by
  intro l
  induction l with
  | nil => simp [successFrames]
  | cons i rest ih =>
    cases hc : cap i with
    | none =>
      simp only [successFrames, hc]
      rw [ih]
      constructor
      · rintro ⟨j, hj, hcj⟩
        exact ⟨j, List.mem_cons_of_mem i hj, hcj⟩
      · rintro ⟨j, hj, hcj⟩
        rcases List.mem_cons.1 hj with h | h
        · subst h; rw [hc] at hcj; cases hcj
        · exact ⟨j, h, hcj⟩
    | some g =>
      simp only [successFrames, hc, List.mem_cons]
      rw [ih]
      constructor
      · rintro (h | ⟨j, hj, hcj⟩)
        · exact ⟨i, Or.inl rfl, by rw [hc, h]⟩
        · exact ⟨j, Or.inr hj, hcj⟩
      · rintro ⟨j, hj, hcj⟩
        rcases hj with h | h
        · subst h; rw [hc] at hcj
          injection hcj with h2
          exact Or.inl h2.symm
        · exact Or.inr ⟨j, h, hcj⟩

theorem successFrames_eq_nil {cap : Nat → Option Frame} {l : List Nat}
    (h : ∀ i ∈ l, cap i = none) : successFrames cap l = [] := by
  rw [List.eq_nil_iff_forall_not_mem]
  intro f hf
  rcases mem_successFrames.1 hf with ⟨i, hi, hci⟩
  rw [h i hi] at hci
  cases hci

theorem mem_interFrameSleeps {cap : Nat → Option Frame} {n : Nat} {d : ℚ} :
    ∀ {l : List Nat} {s : ℚ}, s ∈ interFrameSleeps cap n d l → s = d / 1000 := by
  intro l
  induction l with
  | nil => intro s hs; simp [interFrameSleeps] at hs
  | cons i rest ih =>
    intro s hs
    cases hc : cap i with
    | none =>
      simp only [interFrameSleeps, hc] at hs
      exact ih hs
    | some g =>
      simp only [interFrameSleeps, hc] at hs
      rcases List.mem_append.1 hs with h | h
      · by_cases hn : i < n - 1
        · rw [if_pos hn] at h
          exact List.mem_singleton.1 h
        · rw [if_neg hn] at h
          cases h
      · exact ih h

theorem captureGo_attempts_le (reads : Nat → ReadOutcome) (rc : Nat) :
    ∀ l : List Nat, (captureGo reads rc l).attempts ≤ l.length := by
  intro l
  induction l with
  | nil => exact Nat.le_refl 0
  | cons a rest ih =>
    cases hr : reads a with
    | ok f =>
      simp only [captureGo, hr, List.length_cons]
      omega
    | bad =>
      simp only [captureGo, hr, List.length_cons]
      omega
    | exc =>
      simp only [captureGo, hr, List.length_cons]
      omega

theorem captureGo_all_unusable (reads : Nat → ReadOutcome) (rc : Nat) :
    ∀ l : List Nat, (∀ a ∈ l, ∀ f, reads a ≠ .ok f) →
      (captureGo reads rc l).result = none ∧
      (captureGo reads rc l).attempts = l.length := by
  intro l
  induction l with
  | nil => intro _; exact ⟨rfl, rfl⟩
  | cons a rest ih =>
    intro h
    have ha := h a (List.mem_cons_self a rest)
    have hrest : ∀ b ∈ rest, ∀ f, reads b ≠ .ok f :=
      fun b hb => h b (List.mem_cons_of_mem a hb)
    cases hr : reads a with
    | ok f => exact absurd hr (ha f)
    | bad =>
      simp only [captureGo, hr, List.length_cons]
      exact ⟨(ih hrest).1, by rw [(ih hrest).2]⟩
    | exc =>
      simp only [captureGo, hr, List.length_cons]
      exact ⟨(ih hrest).1, by rw [(ih hrest).2]⟩

theorem captureGo_first_ok (reads : Nat → ReadOutcome) (rc : Nat) :
    ∀ (l : List Nat) (i : Nat) (hi : i < l.length) (f : Frame),
      reads (l.get ⟨i, hi⟩) = .ok f →
      (∀ j (hj : j < i), ∀ g, reads (l.get ⟨j, Nat.lt_trans hj hi⟩) ≠ .ok g) →
      (captureGo reads rc l).result = some f ∧
      (captureGo reads rc l).attempts = i + 1 := by
  intro l
  induction l with
  | nil => intro i hi; exact absurd hi (Nat.not_lt_zero i)
  | cons a rest ih =>
    intro i hi f hf hprev
    cases i with
    | zero =>
      have hfa : reads a = .ok f := hf
      simp [captureGo, hfa]
    | succ k =>
      have hk : k < rest.length := Nat.lt_of_succ_lt_succ hi
      have ha : ∀ g, reads a ≠ .ok g := fun g => hprev 0 (Nat.succ_pos k) g
      have hfk : reads (rest.get ⟨k, hk⟩) = .ok f := hf
      have hprevk : ∀ j (hj : j < k), ∀ g,
          reads (rest.get ⟨j, Nat.lt_trans hj hk⟩) ≠ .ok g :=
        fun j hj g => hprev (j + 1) (Nat.succ_lt_succ hj) g
      cases hr : reads a with
      | ok g => exact absurd hr (ha g)
      | bad =>
        simp only [captureGo, hr]
        have hrec := ih k hk f hfk hprevk
        exact ⟨hrec.1, by rw [hrec.2]⟩
      | exc =>
        simp only [captureGo, hr]
        have hrec := ih k hk f hfk hprevk
        exact ⟨hrec.1, by rw [hrec.2]⟩

/-- Claim C10: with the camera open, `capture(retry_count)` makes at
most `retry_count` read attempts; when every attempt within the budget
yields no usable frame, each consumes one unit of the budget
(`attempts = retry_count`) and the exhausted budget yields the failure
value None — the function is total, so it does not raise; and the
first usable frame is returned immediately, each preceding unusable
attempt having consumed exactly one unit of the budget. -/
theorem capture_retry_spec (reads : Nat → ReadOutcome) (retry_count : Nat) :
    (capture true reads retry_count).attempts ≤ retry_count ∧
    ((∀ i, i < retry_count → ∀ f, reads i ≠ .ok f) →
      (capture true reads retry_count).result = none ∧
      (capture true reads retry_count).attempts = retry_count) ∧
    (∀ i f, i < retry_count → reads i = .ok f →
      (∀ j, j < i → ∀ g, reads j ≠ .ok g) →
      (capture true reads retry_count).result = some f ∧
      (capture true reads retry_count).attempts = i + 1) := by
  have hcap : capture true reads retry_count
      = captureGo reads retry_count (List.range retry_count) := rfl
  refine ⟨?_, ?_, ?_⟩
  · rw [hcap]
    have h := captureGo_attempts_le reads retry_count (List.range retry_count)
    rwa [List.length_range] at h
  · intro h
    rw [hcap]
    have h2 := captureGo_all_unusable reads retry_count (List.range retry_count)
      (fun a ha g => h a (List.mem_range.1 ha) g)
    rwa [List.length_range] at h2
  · intro i f hi hf hprev
    rw [hcap]
    have hi2 : i < (List.range retry_count).length := by
      rwa [List.length_range]
    apply captureGo_first_ok reads retry_count (List.range retry_count) i hi2 f
    · rw [List.get_range]; exact hf
    · intro j hj g
      rw [List.get_range]
      exact hprev j hj g

/-- Claim C10 witness: a first unusable read followed by a usable one:
the usable frame is returned and exactly two budget units were used. -/
theorem capture_retry_spec_witness :
    (capture true readsSecondOk 3).result = some [42] ∧
    (capture true readsSecondOk 3).attempts = 2 :=
  (capture_retry_spec readsSecondOk 3).2.2 1 [42] (by norm_num) rfl
    (by
      intro j hj g
      have hj0 : j = 0 := by omega
      subst hj0
      simp [readsSecondOk])

/-- Claim C9: `capture_multiple` captures up to `num_frames` frames,
takes exactly the configured inter-frame delay (`delay_ms / 1000`
seconds) between them, scores each successful frame by the sharpness
metric, and returns a frame of maximal sharpness score among the
successful captures; when zero captures succeed it returns the
no-frames failure value None. -/
theorem capture_multiple_spec (score : Frame → ℚ) (cap : Nat → Option Frame)
    (num_frames : Nat) (delay_ms : ℚ) :
    ((∀ i, i < num_frames → cap i = none) →
      (capture_multiple score cap num_frames delay_ms).result = none) ∧
    ((∃ i, i < num_frames ∧ (cap i).isSome = true) →
      ∃ f, (capture_multiple score cap num_frames delay_ms).result = some f ∧
        (∃ i, i < num_frames ∧ cap i = some f) ∧
        (∀ g j, j < num_frames → cap j = some g → score g ≤ score f)) ∧
    (∀ s ∈ (capture_multiple score cap num_frames delay_ms).sleeps,
      s = delay_ms / 1000) := by
  have hcm : capture_multiple score cap num_frames delay_ms =
      (if (successFrames cap (List.range num_frames)).isEmpty = true then
        (⟨none, interFrameSleeps cap num_frames delay_ms (List.range num_frames)⟩ :
          MultiTrace)
      else
        ⟨(successFrames cap (List.range num_frames)).get?
            (npArgmax ((successFrames cap (List.range num_frames)).map score)),
          interFrameSleeps cap num_frames delay_ms (List.range num_frames)⟩) := rfl
  refine ⟨?_, ?_, ?_⟩
  · intro h
    have hnil : successFrames cap (List.range num_frames) = [] :=
      successFrames_eq_nil (fun i hi => h i (List.mem_range.1 hi))
    rw [hcm, hnil]
    rfl
  · rintro ⟨i, hi, hsome⟩
    rcases Option.isSome_iff_exists.1 hsome with ⟨f0, hf0⟩
    have hmem0 : f0 ∈ successFrames cap (List.range num_frames) :=
      mem_successFrames.2 ⟨i, List.mem_range.2 hi, hf0⟩
    have hne : successFrames cap (List.range num_frames) ≠ [] :=
      List.ne_nil_of_mem hmem0
    have hemp : (successFrames cap (List.range num_frames)).isEmpty = false :=
      List.isEmpty_eq_false.2 hne
    have hsne : (successFrames cap (List.range num_frames)).map score ≠ [] :=
      fun hm => hne (List.map_eq_nil_iff.1 hm)
    have hlt : npArgmax ((successFrames cap (List.range num_frames)).map score)
        < ((successFrames cap (List.range num_frames)).map score).length :=
      npArgmax_lt_length hsne
    have hlt2 : npArgmax ((successFrames cap (List.range num_frames)).map score)
        < (successFrames cap (List.range num_frames)).length := by
      rwa [List.length_map] at hlt
    refine ⟨(successFrames cap (List.range num_frames)).get ⟨_, hlt2⟩, ?_, ?_, ?_⟩
    · rw [hcm]
      simp only [hemp, Bool.false_eq_true, if_false]
      exact List.get?_eq_get hlt2
    · rcases mem_successFrames.1
        (List.get_mem (successFrames cap (List.range num_frames)) _ hlt2) with
        ⟨j, hj, hcj⟩
      exact ⟨j, List.mem_range.1 hj, hcj⟩
    · intro g j hj hcj
      have hg : g ∈ successFrames cap (List.range num_frames) :=
        mem_successFrames.2 ⟨j, List.mem_range.2 hj, hcj⟩
      have hgs : score g ∈ (successFrames cap (List.range num_frames)).map score :=
        List.mem_map_of_mem score hg
      have hle : score g ≤ npMax ((successFrames cap (List.range num_frames)).map score) :=
        le_npMax _ hgs
      have heq : score ((successFrames cap (List.range num_frames)).get ⟨_, hlt2⟩)
          = npMax ((successFrames cap (List.range num_frames)).map score) := by
        calc score ((successFrames cap (List.range num_frames)).get ⟨_, hlt2⟩)
            = ((successFrames cap (List.range num_frames)).map score).get ⟨_, hlt⟩ :=
              (@List.get_map Frame ℚ score
                (successFrames cap (List.range num_frames)) ⟨_, hlt⟩).symm
          _ = npMax ((successFrames cap (List.range num_frames)).map score) :=
              get_npArgmax hsne
      rw [heq]
      exact hle
  · intro s hs
    have hsl : (capture_multiple score cap num_frames delay_ms).sleeps
        = interFrameSleeps cap num_frames delay_ms (List.range num_frames) := by
      rw [hcm]
      split
      · rfl
      · rfl
    rw [hsl] at hs
    exact mem_interFrameSleeps hs

/-- Claim C9 witness: three synthetic frames of known, distinct
sharpness — the theorem yields a successful capture of maximal score,
and evaluation confirms the sharpest frame [5] is the one returned. -/
theorem capture_multiple_spec_witness :
    (∃ i, i < 3 ∧ (threeCaps i).isSome = true) ∧
    (∃ f, (capture_multiple sharpnessOf threeCaps 3 50).result = some f ∧
      (∃ i, i < 3 ∧ threeCaps i = some f) ∧
      (∀ g j, j < 3 → threeCaps j = some g → sharpnessOf g ≤ sharpnessOf f)) ∧
    (capture_multiple sharpnessOf threeCaps 3 50).result = some [5] :=
  ⟨⟨0, by norm_num, rfl⟩,
   (capture_multiple_spec sharpnessOf threeCaps 3 50).2.1 ⟨0, by norm_num, rfl⟩,
   by decide⟩

end TomatoDetection
